import Mathlib

/-!
Verification development for the coverage badge generator
(`scripts/generate_coverage_badge.py`).

The generator is embedded shallowly:

* Python str is Lean `String`; Python int is `ℤ` (or `ℕ` where the
  source value is provably non-negative, e.g. text widths); Python float
  is modelled as `ℚ` (exact real arithmetic, the standard idealisation of
  the floating point values of the source).
* The parsed coverage.xml tree is modelled by `CoverageReport`: the
  line-rate attribute of the root element and, in document order, the
  line-rate attributes of all nested package elements.  `ReportSource`
  additionally models a missing file and a file that is not well-formed XML,
  the two other failure modes of ET.parse.
* The single error taxonomy — the RuntimeError raised on lines 99-100 with
  a message naming the coverage file and the underlying exception — is
  modelled by `BadgeError.malformedReport`
  carrying the source identifier and the underlying cause.
* Fallible code returns `Except BadgeError`; the `.ok` payload of
  `generate_badge` is the SVG text written to the output file, and an
  `.error` result models the exception propagating before the write stage,
  leaving the output untouched.
-/

/-- The line-rate data of a parsed coverage.xml tree: `source` is the
path used in error messages, `lineRate` is the line-rate attribute of the
root element (line 82), and `packages` lists the line-rate attribute of
every package element found by the findall of line 90, in document
order. -/
structure CoverageReport where
  source : String
  lineRate : Option String
  packages : List (Option String)
deriving DecidableEq, Repr

/-- The input to `_parse_coverage_xml`: either a readable, well-formed XML
file (already parsed into a `CoverageReport`) or one of the two read
failures caught on lines 99-100 of the script. -/
inductive ReportSource where
  | missingFile (path : String)
  | malformedXml (path : String)
  | parsed (report : CoverageReport)
deriving DecidableEq, Repr

/-- The single error of the script — the RuntimeError of line 100, whose
message names the coverage file and the underlying exception; this is the
MalformedReport taxonomy of the spec.  It carries the source identifier
and the underlying cause message. -/
inductive BadgeError where
  | malformedReport (source : String) (cause : String)
deriving DecidableEq, Repr

/-- The source identifier carried by a `BadgeError`. -/
def BadgeError.src : BadgeError → String
  | .malformedReport s _ => s

/-- Digit characters folded into a natural number (the value of a run of
decimal digits). -/
def digitsToNat (l : List Char) : ℕ :=
  l.foldl (fun acc c => 10 * acc + (c.toNat - 48)) 0

/-- Boolean test that every character of `l` is a decimal digit. -/
def allDigits (l : List Char) : Bool :=
  l.all Char.isDigit

/-- Well-formedness check and digit extraction for a plain decimal literal
such as 0, 0.8532, .5 or 5. — an optional single dot separating two digit
runs, at least one digit in total.  Returns the value of all digits read as
one integer together with the number of fractional digits, or `none` when
the string is not such a literal (in particular the empty string, a lone
dot, non-numeric text, or more than one dot). -/
def decimalParts (s : String) : Option (ℕ × ℕ) :=
  let l := s.data
  if l.count '.' = 0 then
    if l ≠ [] ∧ allDigits l then some (digitsToNat l, 0) else none
  else if l.count '.' = 1 then
    let intPart := l.takeWhile (fun c => c ≠ '.')
    let fracPart := (l.dropWhile (fun c => c ≠ '.')).tail
    if (intPart ≠ [] ∨ fracPart ≠ []) ∧ allDigits intPart ∧ allDigits fracPart then
      some (digitsToNat (intPart ++ fracPart), fracPart.length)
    else none
  else none

/-- Model of the Python float conversion restricted to the plain decimal
literals that occur as line-rate attribute values: the exact value of the
literal as a rational.  Returns `none` exactly when the conversion raises
ValueError on such a string. -/
def py_float (s : String) : Option ℚ :=
  (decimalParts s).map (fun p => (p.1 : ℚ) / 10 ^ p.2)

/-- The fallback loop of the parse stage (lines 90-95): the attribute
value of the first package whose line-rate is truthy (present and
non-empty), if any. -/
def findPackageRate : List (Option String) → Option String
  | [] => none
  | some s :: rest => if s ≠ "" then some s else findPackageRate rest
  | none :: rest => findPackageRate rest

/-- The package-fallback tail of the parse stage: the first truthy
package line-rate is converted with float (a ValueError from the
conversion is caught and wrapped, lines 99-100); if no package has a truthy
attribute, the could-not-find-coverage-data ValueError of line 97 is raised
and wrapped on line 100. -/
def packageRateResult (report : CoverageReport) : Except BadgeError ℚ :=
  match findPackageRate report.packages with
  | some s =>
      match py_float s with
      | some v => .ok (v * 100)
      | none => .error (.malformedReport report.source "could not convert string to float")
  | none => .error (.malformedReport report.source "Could not find coverage data in XML")

/-- Model of the parse stage (lines 73-100): a missing file or malformed
XML is caught and wrapped; otherwise, if the top-level line-rate attribute
is truthy it is converted with float and multiplied by 100 (a conversion
failure is wrapped), and if it is absent or empty the package fallback
runs. -/
def parse_coverage_xml (src : ReportSource) : Except BadgeError ℚ :=
  match src with
  | .missingFile path => .error (.malformedReport path "No such file or directory")
  | .malformedXml path => .error (.malformedReport path "syntax error")
  | .parsed report =>
      match report.lineRate with
      | some s =>
          if s ≠ "" then
            match py_float s with
            | some v => .ok (v * 100)
            | none => .error (.malformedReport report.source "could not convert string to float")
          else
            packageRateResult report
      | none => packageRateResult report

/-- Specification-side characterisation used by the amended failure claim:
the single line-rate attribute the code actually consults — the top-level
attribute when truthy (present and non-empty), otherwise the first truthy
package-level attribute.  Later package attributes are never consulted. -/
def resolvedRate (report : CoverageReport) : Option String :=
  match report.lineRate with
  | some s => if s ≠ "" then some s else findPackageRate report.packages
  | none => findPackageRate report.packages

/-- Model of the classify stage (lines 102-109): `coverage` is the float
percentage, `min_good` and `min_ok` the caller-supplied integer
thresholds. -/
def get_coverage_color (coverage : ℚ) (min_good min_ok : ℤ) : String :=
  if coverage ≥ (min_good : ℚ) then "brightgreen"
  else if coverage ≥ (min_ok : ℚ) then "yellow"
  else "red"

/-- Model of the text width heuristic (lines 116-122): the character count
times the char width of 0.6 times the font size, truncated to an integer.
The value is non-negative, so the truncation is the floor, and the exact
rational floors to the natural-number division below (proved in the width
theorem). -/
def calculate_text_width (text : String) (font_size : ℕ) : ℕ :=
  text.length * font_size * 6 / 10

/-- The color table lookup with the color itself as the default: the
identical literal table of the flat, plastic and for-the-badge templates
(lines 127-137, 172-182, 217-227); an unrecognized name passes through
unchanged. -/
def color_map_get (color : String) : String :=
  if color = "brightgreen" then "#4c1"
  else if color = "green" then "#97ca00"
  else if color = "yellow" then "#dfb317"
  else if color = "orange" then "#fe7d37"
  else if color = "red" then "#e05d44"
  else if color = "lightgrey" then "#9f9f9f"
  else if color = "blue" then "#007ec6"
  else color

/-- Model of Python `str.upper()` used by `_for_the_badge_template` (lines
230-231), restricted to ASCII (the only case exercised by the badge texts):
core `Char.toUpper` maps exactly `a`-`z` to `A`-`Z`, as Python does on
ASCII. -/
def py_upper (s : String) : String :=
  ⟨s.data.map Char.toUpper⟩

/-- Model of the flat template (lines 124-167), transcribed literally from
the f-string; the grouping of the concatenation is semantically irrelevant
and chosen so that the width attribute decomposition is definitional. -/
def flat_badge_template (title text color : String) : String :=
  let badge_color := color_map_get color
  let title_width := calculate_text_width title 11
  let text_width := calculate_text_width text 11
  let total_width := title_width + text_width + 20
  let title_x := title_width / 2 + 6
  let text_x := title_width + text_width / 2 + 10
  "<svg xmlns=\"http://www.w3.org/2000/svg\" xmlns:xlink=\"http://www.w3.org/1999/xlink\" width=\"" ++
    toString total_width ++
    ("\" height=\"20\" role=\"img\" aria-label=\"" ++ title ++
      (": " ++ text ++
        ("\">\n    <title>" ++ title ++ ": " ++ text ++
          "</title>\n    <linearGradient id=\"s\" x2=\"0\" y2=\"100%\">\n        <stop offset=\"0\" stop-color=\"#bbb\" stop-opacity=\".1\"/>\n        <stop offset=\"1\" stop-opacity=\".1\"/>\n    </linearGradient>\n    <clipPath id=\"r\">\n        <rect width=\"" ++
          toString total_width ++
          "\" height=\"20\" rx=\"3\" fill=\"#fff\"/>\n    </clipPath>\n    <g clip-path=\"url(#r)\">\n        <rect width=\"" ++
          toString (title_width + 10) ++
          "\" height=\"20\" fill=\"#555\"/>\n        <rect x=\"" ++
          toString (title_width + 10) ++ "\" width=\"" ++ toString (text_width + 10) ++
          "\" height=\"20\" fill=\"" ++ badge_color ++
          "\"/>\n        <rect width=\"" ++ toString total_width ++
          "\" height=\"20\" fill=\"url(#s)\"/>\n    </g>\n    <g fill=\"#fff\" text-anchor=\"middle\" font-family=\"Verdana,Geneva,DejaVu Sans,sans-serif\" text-rendering=\"geometricPrecision\" font-size=\"110\">\n        <text aria-hidden=\"true\" x=\"" ++
          toString (title_x * 10) ++
          "\" y=\"150\" fill=\"#010101\" fill-opacity=\".3\" transform=\"scale(.1)\">" ++ title ++
          "</text>\n        <text x=\"" ++ toString (title_x * 10) ++
          "\" y=\"140\" transform=\"scale(.1)\" fill=\"#fff\">" ++ title ++
          "</text>\n        <text aria-hidden=\"true\" x=\"" ++ toString (text_x * 10) ++
          "\" y=\"150\" fill=\"#010101\" fill-opacity=\".3\" transform=\"scale(.1)\">" ++ text ++
          "</text>\n        <text x=\"" ++ toString (text_x * 10) ++
          "\" y=\"140\" transform=\"scale(.1)\" fill=\"#fff\">" ++ text ++
          "</text>\n    </g>\n</svg>")))

/-- Model of the plastic template (lines 169-213), transcribed literally
from the f-string. -/
def plastic_badge_template (title text color : String) : String :=
  let badge_color := color_map_get color
  let title_width := calculate_text_width title 11
  let text_width := calculate_text_width text 11
  let total_width := title_width + text_width + 20
  let title_x := title_width / 2 + 6
  let text_x := title_width + text_width / 2 + 10
  "<svg xmlns=\"http://www.w3.org/2000/svg\" xmlns:xlink=\"http://www.w3.org/1999/xlink\" width=\"" ++
    toString total_width ++
    ("\" height=\"18\" role=\"img\" aria-label=\"" ++ title ++
      (": " ++ text ++
        ("\">\n    <title>" ++ title ++ ": " ++ text ++
          "</title>\n    <linearGradient id=\"s\" x2=\"0\" y2=\"100%\">\n        <stop offset=\"0\" stop-color=\"#fff\" stop-opacity=\".7\"/>\n        <stop offset=\".1\" stop-color=\"#aaa\" stop-opacity=\".1\"/>\n        <stop offset=\".9\" stop-color=\"#000\" stop-opacity=\".3\"/>\n        <stop offset=\"1\" stop-color=\"#000\" stop-opacity=\".5\"/>\n    </linearGradient>\n    <clipPath id=\"r\">\n        <rect width=\"" ++
          toString total_width ++
          "\" height=\"18\" rx=\"4\" fill=\"#fff\"/>\n    </clipPath>\n    <g clip-path=\"url(#r)\">\n        <rect width=\"" ++
          toString (title_width + 10) ++
          "\" height=\"18\" fill=\"#555\"/>\n        <rect x=\"" ++
          toString (title_width + 10) ++ "\" width=\"" ++ toString (text_width + 10) ++
          "\" height=\"18\" fill=\"" ++ badge_color ++
          "\"/>\n        <rect width=\"" ++ toString total_width ++
          "\" height=\"18\" fill=\"url(#s)\"/>\n    </g>\n    <g fill=\"#fff\" text-anchor=\"middle\" font-family=\"Verdana,Geneva,DejaVu Sans,sans-serif\" text-rendering=\"geometricPrecision\" font-size=\"110\">\n        <text aria-hidden=\"true\" x=\"" ++
          toString (title_x * 10) ++
          "\" y=\"140\" fill=\"#010101\" fill-opacity=\".3\" transform=\"scale(.1)\">" ++ title ++
          "</text>\n        <text x=\"" ++ toString (title_x * 10) ++
          "\" y=\"130\" transform=\"scale(.1)\" fill=\"#fff\">" ++ title ++
          "</text>\n        <text aria-hidden=\"true\" x=\"" ++ toString (text_x * 10) ++
          "\" y=\"140\" fill=\"#010101\" fill-opacity=\".3\" transform=\"scale(.1)\">" ++ text ++
          "</text>\n        <text x=\"" ++ toString (text_x * 10) ++
          "\" y=\"130\" transform=\"scale(.1)\" fill=\"#fff\">" ++ text ++
          "</text>\n    </g>\n</svg>")))

/-- Model of the for-the-badge template (lines 215-250), transcribed
literally from the f-string: title and value are upper-cased before both
width measurement and rendering, the text width heuristic uses font size
12, and the fixed padding is 24. -/
def for_the_badge_template (title text color : String) : String :=
  let badge_color := color_map_get color
  let title_upper := py_upper title
  let text_upper := py_upper text
  let title_width := calculate_text_width title_upper 12
  let text_width := calculate_text_width text_upper 12
  let total_width := title_width + text_width + 24
  let title_x := title_width / 2 + 8
  let text_x := title_width + text_width / 2 + 16
  "<svg xmlns=\"http://www.w3.org/2000/svg\" xmlns:xlink=\"http://www.w3.org/1999/xlink\" width=\"" ++
    toString total_width ++
    ("\" height=\"28\" role=\"img\" aria-label=\"" ++ title_upper ++
      (": " ++ text_upper ++
        ("\">\n    <title>" ++ title_upper ++ ": " ++ text_upper ++
          "</title>\n    <g shape-rendering=\"crispEdges\">\n        <rect width=\"" ++
          toString (title_width + 16) ++
          "\" height=\"28\" fill=\"#555\"/>\n        <rect x=\"" ++
          toString (title_width + 16) ++ "\" width=\"" ++ toString (text_width + 8) ++
          "\" height=\"28\" fill=\"" ++ badge_color ++
          "\"/>\n    </g>\n    <g fill=\"#fff\" text-anchor=\"middle\" font-family=\"Verdana,Geneva,DejaVu Sans,sans-serif\" text-rendering=\"geometricPrecision\" font-weight=\"bold\" font-size=\"100\">\n        <text x=\"" ++
          toString (title_x * 10) ++
          "\" y=\"175\" transform=\"scale(.1)\" fill=\"#fff\">" ++ title_upper ++
          "</text>\n        <text x=\"" ++ toString (text_x * 10) ++
          "\" y=\"175\" transform=\"scale(.1)\" fill=\"#fff\">" ++ text_upper ++
          "</text>\n    </g>\n</svg>")))

/-- Model of the render dispatch (lines 111-114): the style dictionary
built on lines 38-42, queried with the flat template as the default — an
unknown style falls back to the flat template. -/
def generate_svg_badge (title text color style : String) : String :=
  (if style = "flat" then flat_badge_template
   else if style = "plastic" then plastic_badge_template
   else if style = "for-the-badge" then for_the_badge_template
   else flat_badge_template) title text color

/-- Round half to even, the rounding Python applies when formatting a
float with zero decimal places (line 61). -/
def round_half_even (q : ℚ) : ℤ :=
  if q - ⌊q⌋ < 1/2 then ⌊q⌋
  else if q - ⌊q⌋ > 1/2 then ⌊q⌋ + 1
  else if ⌊q⌋ % 2 = 0 then ⌊q⌋ else ⌊q⌋ + 1

/-- The percent text of line 61: the percentage rounded to zero decimals
followed by a percent sign. -/
def format_percent (q : ℚ) : String :=
  toString (round_half_even q) ++ "%"

/-- Model of the orchestration (lines 44-71): parse, classify, format,
render, then write.  The `.ok` payload is the SVG text written to the
output file; an `.error` result models the parse exception propagating
before the write stage is reached, leaving the output file untouched. -/
def generate_badge (report : ReportSource) (style title : String)
    (min_good min_ok : ℤ) : Except BadgeError String :=
  match parse_coverage_xml report with
  | .error e => .error e
  | .ok coverage_percent =>
      let color := get_coverage_color coverage_percent min_good min_ok
      let coverage_text := format_percent coverage_percent
      .ok (generate_svg_badge title coverage_text color style)

/-! Helper lemmas -/

/-- Characters in the range of `Char.ofNat` on valid scalar values keep
their code point. -/
theorem char_toNat_ofNat_valid {n : ℕ} (h : n.isValidChar) :
    (Char.ofNat n).toNat = n := by
  rw [Char.ofNat, dif_pos h]
  simp [Char.ofNatAux, Char.toNat, UInt32.toNat]

/-- ASCII upper-casing of a character is idempotent. -/
theorem char_toUpper_idem (c : Char) : c.toUpper.toUpper = c.toUpper := by
  unfold Char.toUpper
  by_cases h : 97 ≤ c.toNat ∧ c.toNat ≤ 122
  · have hv : (c.toNat - 32).isValidChar := by
      left
      omega
    have ht : (Char.ofNat (c.toNat - 32)).toNat = c.toNat - 32 :=
      char_toNat_ofNat_valid hv
    simp only [if_pos h, ht]
    have hout : ¬ (97 ≤ c.toNat - 32 ∧ c.toNat - 32 ≤ 122) := by omega
    simp only [if_neg hout]
  · simp only [if_neg h]

/-- Mapping ASCII upper-casing over a character list is idempotent. -/
theorem map_toUpper_idem (l : List Char) :
    (l.map Char.toUpper).map Char.toUpper = l.map Char.toUpper := by
  induction l with
  | nil => rfl
  | cons c t ih => simp only [List.map_cons, char_toUpper_idem, ih]

/-- Idempotence of `py_upper`. -/
theorem py_upper_idem (s : String) : py_upper (py_upper s) = py_upper s :=
  congrArg String.mk (map_toUpper_idem s.data)

/-- ASCII upper-casing never returns a lowercase ASCII letter. -/
theorem char_toUpper_not_lower (c : Char) :
    ¬ (97 ≤ c.toUpper.toNat ∧ c.toUpper.toNat ≤ 122) := by
  unfold Char.toUpper
  by_cases h : 97 ≤ c.toNat ∧ c.toNat ≤ 122
  · have hv : (c.toNat - 32).isValidChar := by
      left
      omega
    rw [if_pos h, char_toNat_ofNat_valid hv]
    omega
  · rw [if_neg h]
    exact h

/-- Every character of a `py_upper` result is outside the lowercase ASCII
range — the string is in upper-cased form. -/
theorem py_upper_not_lower (s : String) :
    ∀ c ∈ (py_upper s).data, ¬ (97 ≤ c.toNat ∧ c.toNat ≤ 122) := by
  intro c hc
  have hd : (py_upper s).data = s.data.map Char.toUpper := rfl
  rw [hd] at hc
  rcases List.mem_map.mp hc with ⟨d, _, rfl⟩
  exact char_toUpper_not_lower d

/-- The empty string is not a parseable decimal. -/
theorem py_float_empty : py_float "" = none := rfl

/-- A string that parses as a decimal is non-empty (so it is truthy for the
`if line_rate:` tests of the script). -/
theorem py_float_ne_empty {s : String} {v : ℚ} (h : py_float s = some v) :
    s ≠ "" := by
  intro he
  subst he
  rw [py_float_empty] at h
  exact Option.noConfusion h

/-- The package scan skips packages whose attribute is absent or empty and
stops at the first truthy one. -/
theorem findPackageRate_skip (pre : List (Option String)) (s : String)
    (post : List (Option String))
    (hpre : ∀ o ∈ pre, o = none ∨ o = some "") (hs : s ≠ "") :
    findPackageRate (pre ++ some s :: post) = some s := by
  induction pre with
  | nil =>
      simp only [List.nil_append, findPackageRate, if_pos hs]
  | cons o t ih =>
      have ht : ∀ x ∈ t, x = none ∨ x = some "" := fun x hx =>
        hpre x (List.mem_cons_of_mem _ hx)
      rcases hpre o (List.mem_cons_self _ _) with h | h
      · subst h
        simp only [List.cons_append, findPackageRate]
        exact ih ht
      · subst h
        simp only [List.cons_append, findPackageRate, ne_eq,
          not_true_eq_false, if_false]
        exact ih ht

/-- Evaluation of the parse stage on a well-formed tree, characterised
through the single attribute it consults. -/
theorem parse_parsed_eq (report : CoverageReport) :
    parse_coverage_xml (.parsed report) =
      match resolvedRate report with
      | some s =>
          match py_float s with
          | some v => .ok (v * 100)
          | none => .error (.malformedReport report.source "could not convert string to float")
      | none => .error (.malformedReport report.source "Could not find coverage data in XML") := by
  obtain ⟨src, lr, pkgs⟩ := report
  cases lr with
  | none => rfl
  | some s =>
      by_cases hs : s = ""
      · subst hs
        rfl
      · simp only [parse_coverage_xml, resolvedRate, if_pos hs]

/-! Claims -/

/-- C1 (counterexample): with `p = minGood = minOk = 60` the hypothesis
`minOk ≤ minGood` holds, yet `classify(minOk, minGood, minOk)` is
`brightgreen`, not `yellow` as the boundary statement of the claim
asserts. -/
theorem C1_counterexample :
    ((60 : ℤ) ≤ (60 : ℤ)) ∧
    get_coverage_color ((60 : ℤ) : ℚ) 60 60 = "brightgreen" ∧
    ("brightgreen" : String) ≠ "yellow" := by
  refine ⟨le_refl _, ?_, by decide⟩
  norm_num [get_coverage_color]

/-- C1 (amended): for `minOk ≤ minGood`, classification is `brightgreen`
iff `p ≥ minGood`, `red` iff `p < minOk`, and `yellow` otherwise;
`classify(minGood, minGood, minOk) = brightgreen` always, and
`classify(minOk, minGood, minOk) = yellow` whenever `minOk < minGood`
(with `minOk = minGood` that boundary is `brightgreen`). -/
theorem C1_classify_amended (p : ℚ) (min_good min_ok : ℤ)
    (h : min_ok ≤ min_good) :
    (get_coverage_color p min_good min_ok = "brightgreen" ↔ (min_good : ℚ) ≤ p) ∧
    (get_coverage_color p min_good min_ok = "red" ↔ p < (min_ok : ℚ)) ∧
    (¬ (min_good : ℚ) ≤ p → ¬ p < (min_ok : ℚ) →
      get_coverage_color p min_good min_ok = "yellow") ∧
    get_coverage_color (min_good : ℚ) min_good min_ok = "brightgreen" ∧
    (min_ok < min_good →
      get_coverage_color (min_ok : ℚ) min_good min_ok = "yellow") := by
  have hq : (min_ok : ℚ) ≤ (min_good : ℚ) := by exact_mod_cast h
  unfold get_coverage_color
  refine ⟨?_, ?_, ?_, ?_, ?_⟩
  · split_ifs with h1 h2
    · exact iff_of_true rfl h1
    · exact iff_of_false (by decide) h1
    · exact iff_of_false (by decide) h1
  · split_ifs with h1 h2
    · exact iff_of_false (by decide) (not_lt.mpr (le_trans hq h1))
    · exact iff_of_false (by decide) (not_lt.mpr h2)
    · exact iff_of_true rfl (not_le.mp h2)
  · intro h1 h2
    split_ifs with h3 h4
    · exact absurd h3 h1
    · rfl
    · exact absurd (not_lt.mp h2) h4
  · simp
  · intro hlt
    have h1 : ¬ ((min_good : ℚ) ≤ (min_ok : ℚ)) := by
      push_neg
      exact_mod_cast hlt
    rw [if_neg h1, if_pos le_rfl]

/-- C1 (witness): the amended theorem applied at the default thresholds
`minGood = 80 > minOk = 60`. -/
theorem C1_classify_amended_witness :
    ((60 : ℤ) ≤ (80 : ℤ)) ∧ ((60 : ℤ) < (80 : ℤ)) ∧
    get_coverage_color ((60 : ℤ) : ℚ) 80 60 = "yellow" :=
  ⟨by norm_num, by norm_num,
    (C1_classify_amended ((60 : ℤ) : ℚ) 80 60 (by norm_num)).2.2.2.2 (by norm_num)⟩

/-- C9: classification is total and pure — for every rational percentage
and every pair of integer thresholds (including inverted or equal pairs) it
returns one of exactly `brightgreen`, `yellow`, `red`, the outcome
determined by the first comparison branch that succeeds. -/
theorem C9_classify_total (p : ℚ) (min_good min_ok : ℤ) :
    (get_coverage_color p min_good min_ok = "brightgreen" ∨
      get_coverage_color p min_good min_ok = "yellow" ∨
      get_coverage_color p min_good min_ok = "red") ∧
    ((min_good : ℚ) ≤ p → get_coverage_color p min_good min_ok = "brightgreen") ∧
    (p < (min_good : ℚ) → (min_ok : ℚ) ≤ p →
      get_coverage_color p min_good min_ok = "yellow") ∧
    (p < (min_good : ℚ) → p < (min_ok : ℚ) →
      get_coverage_color p min_good min_ok = "red") := by
  unfold get_coverage_color
  refine ⟨?_, ?_, ?_, ?_⟩
  · split_ifs <;> simp
  · intro h1
    simp [h1]
  · intro h1 h2
    rw [if_neg (not_le.mpr h1), if_pos h2]
  · intro h1 h2
    rw [if_neg (not_le.mpr h1), if_neg (not_le.mpr h2)]

/-- C9 (witness): an inverted threshold pair `minGood = 60 < minOk = 80`
still classifies; `p = 70 ≥ 60` hits the first branch. -/
theorem C9_classify_total_witness : get_coverage_color 70 60 80 = "brightgreen" :=
  (C9_classify_total 70 60 80).2.1 (by norm_num)

/-- C2: a truthy top-level `line-rate` parsing to `r ∈ [0,1]` yields
exactly `100 × r`, whatever the package elements contain. -/
theorem C2_root_line_rate_exact (src s : String) (r : ℚ)
    (pkgs : List (Option String)) (hs : py_float s = some r)
    (h0 : 0 ≤ r) (h1 : r ≤ 1) :
    parse_coverage_xml (.parsed ⟨src, some s, pkgs⟩) = .ok (100 * r) := by
  have hne : s ≠ "" := py_float_ne_empty hs
  simp only [parse_coverage_xml, if_pos hne, hs]
  rw [mul_comm]

/-- C2 (witness): a root line-rate of 0.95 yields 95, ignoring the package
attribute 0.1. -/
theorem C2_root_line_rate_exact_witness :
    (0 : ℚ) ≤ 19 / 20 ∧ (19 / 20 : ℚ) ≤ 1 ∧
    parse_coverage_xml (.parsed ⟨"coverage.xml", some "0.95", [some "0.1"]⟩) =
      .ok (100 * (19 / 20)) :=
  ⟨by norm_num, by norm_num,
    C2_root_line_rate_exact "coverage.xml" "0.95" (19 / 20) [some "0.1"]
      (by
        simp only [py_float, show decimalParts "0.95" = some (95, 2) from by decide,
          Option.map_some']
        norm_num)
      (by norm_num) (by norm_num)⟩

/-- C4: with the top-level attribute absent, extraction returns `100 ×` the
rate of the first package carrying a truthy `line-rate`, ignoring all later
packages. -/
theorem C4_package_fallback_first (src s : String) (v : ℚ)
    (pre post : List (Option String))
    (hpre : ∀ o ∈ pre, o = none ∨ o = some "")
    (hs : py_float s = some v) :
    parse_coverage_xml (.parsed ⟨src, none, pre ++ some s :: post⟩) =
      .ok (100 * v) := by
  have hne : s ≠ "" := py_float_ne_empty hs
  simp only [parse_coverage_xml, packageRateResult,
    findPackageRate_skip pre s post hpre hne, hs]
  rw [mul_comm]

/-- C4 (witness): root attribute absent and package rates absent, empty,
0.5 and 0.9 in that order — the result is 50, from the first truthy
package, not any aggregate. -/
theorem C4_package_fallback_first_witness :
    parse_coverage_xml
        (.parsed ⟨"coverage.xml", none, [none, some "", some "0.5", some "0.9"]⟩) =
      .ok (100 * (1 / 2)) :=
  C4_package_fallback_first "coverage.xml" "0.5" (1 / 2) [none, some ""]
    [some "0.9"] (by decide)
    (by
      simp only [py_float, show decimalParts "0.5" = some (5, 1) from by decide,
        Option.map_some']
      norm_num)

/-- C10: an empty top-level line-rate is falsy for the truthiness test of
line 83 and is treated as absent — the package fallback runs and
succeeds. -/
theorem C10_empty_root_fallback (src s : String) (v : ℚ)
    (pre post : List (Option String))
    (hpre : ∀ o ∈ pre, o = none ∨ o = some "")
    (hs : py_float s = some v) :
    parse_coverage_xml (.parsed ⟨src, some "", pre ++ some s :: post⟩) =
      .ok (100 * v) := by
  have hne : s ≠ "" := py_float_ne_empty hs
  simp only [parse_coverage_xml]
  rw [if_neg (show ¬ (("" : String) ≠ "") from fun hc => hc rfl)]
  simp only [packageRateResult, findPackageRate_skip pre s post hpre hne, hs]
  rw [mul_comm]

/-- C10 (witness): an empty line-rate on the root with a parseable package
rate of 0.5 succeeds via the fallback. -/
theorem C10_empty_root_fallback_witness :
    parse_coverage_xml (.parsed ⟨"coverage.xml", some "", [some "0.5"]⟩) =
      .ok (100 * (1 / 2)) :=
  C10_empty_root_fallback "coverage.xml" "0.5" (1 / 2) [] [] (by decide)
    (by
      simp only [py_float, show decimalParts "0.5" = some (5, 1) from by decide,
        Option.map_some']
      norm_num)

/-- C3 (counterexample): a present-but-unparseable top-level line-rate of
abc makes extraction fail even though a package-level attribute of 0.5 is
present and parseable — so the claimed equivalence, that extraction fails
iff neither the top-level nor any package-level attribute is present and
parseable, is false in the only-if direction. -/
theorem C3_counterexample :
    py_float "0.5" = some (1 / 2) ∧
    parse_coverage_xml (.parsed ⟨"coverage.xml", some "abc", [some "0.5"]⟩) =
      .error (.malformedReport "coverage.xml" "could not convert string to float") := by
  constructor
  · simp only [py_float, show decimalParts "0.5" = some (5, 1) from by decide,
      Option.map_some']
    norm_num
  · simp only [parse_coverage_xml,
      if_pos (show ("abc" : String) ≠ "" from by decide),
      show py_float "abc" = none from rfl]

/-- C3 (amended): extraction on a well-formed tree succeeds iff the single
consulted `line-rate` attribute — the top-level one when truthy, otherwise
the first truthy package-level one — exists and parses as a decimal; every
failure is a `MalformedReport` carrying the source identifier, and a
missing file or malformed XML also fails descriptively. -/
theorem C3_failure_iff_amended (report : CoverageReport) :
    ((∃ q, parse_coverage_xml (.parsed report) = .ok q) ↔
      (∃ s v, resolvedRate report = some s ∧ py_float s = some v)) ∧
    (∀ e, parse_coverage_xml (.parsed report) = .error e →
      e.src = report.source) ∧
    (∀ path, parse_coverage_xml (.missingFile path) =
      .error (.malformedReport path "No such file or directory")) ∧
    (∀ path, parse_coverage_xml (.malformedXml path) =
      .error (.malformedReport path "syntax error")) := by
  refine ⟨?_, ?_, fun _ => rfl, fun _ => rfl⟩
  · rw [parse_parsed_eq]
    cases hr : resolvedRate report with
    | none => simp
    | some s =>
        cases hv : py_float s with
        | none => simp [hv]
        | some v => simp [hv]
  · intro e he
    rw [parse_parsed_eq] at he
    cases hr : resolvedRate report with
    | none =>
        rw [hr] at he
        injection he with h
        rw [← h]
        rfl
    | some s =>
        rw [hr] at he
        have he2 : (match py_float s with
            | some v => (Except.ok (v * 100) : Except BadgeError ℚ)
            | none => Except.error
                (BadgeError.malformedReport report.source
                  "could not convert string to float")) = Except.error e := he
        cases hv : py_float s with
        | none =>
            rw [hv] at he2
            injection he2 with h
            rw [← h]
            rfl
        | some v =>
            rw [hv] at he2
            exact Except.noConfusion he2

/-- C3 (witness): the amended success condition applied to a tree with no
top-level rate and one parseable package rate. -/
theorem C3_failure_iff_amended_witness :
    ∃ q, parse_coverage_xml (.parsed ⟨"coverage.xml", none, [some "0.5"]⟩) = .ok q :=
  (C3_failure_iff_amended ⟨"coverage.xml", none, [some "0.5"]⟩).1.mpr
    ⟨"0.5", 1 / 2, rfl, by
      simp only [py_float, show decimalParts "0.5" = some (5, 1) from by decide,
        Option.map_some']
      norm_num⟩

/-- C8: whenever extraction fails, `generate_badge` propagates the same
error and the write stage is never reached — the `.ok` payload (the text
written to the output file) is never produced. -/
theorem C8_no_write_on_failure (report : ReportSource) (style title : String)
    (min_good min_ok : ℤ) (e : BadgeError)
    (h : parse_coverage_xml report = .error e) :
    generate_badge report style title min_good min_ok = .error e := by
  unfold generate_badge
  rw [h]

/-- C8 (witness): `line-rate` missing on the root and on every package —
`generate_badge` fails with the wrapped `MalformedReport` and writes
nothing. -/
theorem C8_no_write_on_failure_witness :
    generate_badge (.parsed ⟨"coverage.xml", none, [none, some ""]⟩)
        "flat" "coverage" 80 60 =
      .error (.malformedReport "coverage.xml" "Could not find coverage data in XML") :=
  C8_no_write_on_failure (.parsed ⟨"coverage.xml", none, [none, some ""]⟩)
    "flat" "coverage" 80 60
    (.malformedReport "coverage.xml" "Could not find coverage data in XML") rfl

/-- C6: any style outside `flat`, `plastic`, `for-the-badge` renders
exactly as `flat`; rendering is total for every style string. -/
theorem C6_style_fallback (title text color style : String)
    (h1 : style ≠ "flat") (h2 : style ≠ "plastic")
    (h3 : style ≠ "for-the-badge") :
    generate_svg_badge title text color style =
      generate_svg_badge title text color "flat" := by
  unfold generate_svg_badge
  rw [if_neg h1, if_neg h2, if_neg h3, if_pos rfl]

/-- C6 (witness): the unknown style named round falls back to flat. -/
theorem C6_style_fallback_witness :
    generate_svg_badge "coverage" "95%" "brightgreen" "round" =
      generate_svg_badge "coverage" "95%" "brightgreen" "flat" :=
  C6_style_fallback "coverage" "95%" "brightgreen" "round"
    (by decide) (by decide) (by decide)

/-- C5: the text width heuristic is the truncation of
`character_count × font_size × 0.6`, and the total width of every badge
(the first `width` attribute of the document) is the sum of the two text
widths plus the per-style padding: 20 for `flat` and `plastic` (font size
11), 24 for `for-the-badge` (font size 12, upper-cased texts). -/
theorem C5_total_width (title text color : String) :
    (∀ s : String, ∀ font_size : ℕ,
      calculate_text_width s font_size =
        ⌊(s.length : ℚ) * ((font_size : ℚ) * (6 / 10))⌋₊) ∧
    (∃ r, flat_badge_template title text color =
      "<svg xmlns=\"http://www.w3.org/2000/svg\" xmlns:xlink=\"http://www.w3.org/1999/xlink\" width=\"" ++
        toString (calculate_text_width title 11 + calculate_text_width text 11 + 20) ++ r) ∧
    (∃ r, plastic_badge_template title text color =
      "<svg xmlns=\"http://www.w3.org/2000/svg\" xmlns:xlink=\"http://www.w3.org/1999/xlink\" width=\"" ++
        toString (calculate_text_width title 11 + calculate_text_width text 11 + 20) ++ r) ∧
    (∃ r, for_the_badge_template title text color =
      "<svg xmlns=\"http://www.w3.org/2000/svg\" xmlns:xlink=\"http://www.w3.org/1999/xlink\" width=\"" ++
        toString (calculate_text_width (py_upper title) 12 +
          calculate_text_width (py_upper text) 12 + 24) ++ r) := by
  refine ⟨?_, ⟨_, rfl⟩, ⟨_, rfl⟩, ⟨_, rfl⟩⟩
  intro s font_size
  have key : (s.length : ℚ) * ((font_size : ℚ) * (6 / 10)) =
      ((s.length * font_size * 6 : ℕ) : ℚ) / ((10 : ℕ) : ℚ) := by
    push_cast
    ring
  unfold calculate_text_width
  rw [key, Nat.floor_div_nat, Nat.floor_natCast]

/-- C7: the for-the-badge document carries the title and value only in
upper-cased form.  The full-document equation pins every insertion slot —
the aria-label, the title element, and both text elements — to the
upper-cased `py_upper title` and `py_upper text` (all other segments are
fixed literals, digit strings of the geometry, or the color); the
no-lowercase conjuncts show those upper-cased forms contain no lowercase
ASCII letter even for mixed-case input; and the document is invariant
under pre-upper-casing its inputs. -/
theorem C7_for_the_badge_uppercase (title text color : String) :
    (∀ c ∈ (py_upper title).data, ¬ (97 ≤ c.toNat ∧ c.toNat ≤ 122)) ∧
    (∀ c ∈ (py_upper text).data, ¬ (97 ≤ c.toNat ∧ c.toNat ≤ 122)) ∧
    for_the_badge_template title text color =
      "<svg xmlns=\"http://www.w3.org/2000/svg\" xmlns:xlink=\"http://www.w3.org/1999/xlink\" width=\"" ++
        toString (calculate_text_width (py_upper title) 12 +
          calculate_text_width (py_upper text) 12 + 24) ++
        ("\" height=\"28\" role=\"img\" aria-label=\"" ++ py_upper title ++
          (": " ++ py_upper text ++
            ("\">\n    <title>" ++ py_upper title ++ ": " ++ py_upper text ++
              "</title>\n    <g shape-rendering=\"crispEdges\">\n        <rect width=\"" ++
              toString (calculate_text_width (py_upper title) 12 + 16) ++
              "\" height=\"28\" fill=\"#555\"/>\n        <rect x=\"" ++
              toString (calculate_text_width (py_upper title) 12 + 16) ++ "\" width=\"" ++
              toString (calculate_text_width (py_upper text) 12 + 8) ++
              "\" height=\"28\" fill=\"" ++ color_map_get color ++
              "\"/>\n    </g>\n    <g fill=\"#fff\" text-anchor=\"middle\" font-family=\"Verdana,Geneva,DejaVu Sans,sans-serif\" text-rendering=\"geometricPrecision\" font-weight=\"bold\" font-size=\"100\">\n        <text x=\"" ++
              toString ((calculate_text_width (py_upper title) 12 / 2 + 8) * 10) ++
              "\" y=\"175\" transform=\"scale(.1)\" fill=\"#fff\">" ++ py_upper title ++
              "</text>\n        <text x=\"" ++
              toString ((calculate_text_width (py_upper title) 12 +
                calculate_text_width (py_upper text) 12 / 2 + 16) * 10) ++
              "\" y=\"175\" transform=\"scale(.1)\" fill=\"#fff\">" ++ py_upper text ++
              "</text>\n    </g>\n</svg>"))) ∧
    for_the_badge_template title text color =
      for_the_badge_template (py_upper title) (py_upper text) color := by
  refine ⟨py_upper_not_lower title, py_upper_not_lower text, rfl, ?_⟩
  simp only [for_the_badge_template, py_upper_idem]

/-- C7 (witness): the theorem applied at mixed-case inputs — upper-cased C
is not lowercase, and the document for mixed-case input equals the one for
the upper-cased input. -/
theorem C7_for_the_badge_uppercase_witness :
    ¬ (97 ≤ ('C' : Char).toNat ∧ ('C' : Char).toNat ≤ 122) ∧
    for_the_badge_template "Coverage" "95%" "brightgreen" =
      for_the_badge_template (py_upper "Coverage") (py_upper "95%") "brightgreen" :=
  ⟨(C7_for_the_badge_uppercase "Coverage" "95%" "brightgreen").1 'C' (by decide),
    (C7_for_the_badge_uppercase "Coverage" "95%" "brightgreen").2.2.2⟩
